import Mathlib

/-
Verification of the ARK token validation and route authorization subsystem.

The definitions below are a shallow embedding of the Python sources:
  - ark_sdk.auth.config.AuthConfig and ark_sdk.auth.validator.TokenValidator
    (lib/ark-sdk/gen_sdk/overlay/python/ark_sdk/auth/),
  - ark_auth.config.AuthSettings and ark_auth.validator.validate_jwt and
    ark_auth.dependencies.validate_token (services/ark-auth/),
  - ark_api.auth.middleware.AuthMiddleware and
    ark_api.auth.authentication.AuthenticationMiddleware (services/ark-api/).
Effectful calls (network key fetch, cryptographic decode, environment reads)
are passed in explicitly as oracle arguments, so each embedded function is a
pure, executable function of its inputs and of the outcomes of those calls.
-/

namespace ArkAuth

/-- Decoded JWT claim set: a mapping from claim name to value. -/
abbrev Claims : Type := List (String × String)

/-- Outcome of a Python call that may raise one of the pyjwt exception classes
distinguished by the except chain of TokenValidator.validate_token, or any
other exception. -/
inductive PyOutcome (α : Type) where
  | ok (val : α)
  | expiredSignatureError (msg : String)
  | invalidTokenError (msg : String)
  | decodeFailed (msg : String)
  | otherException (msg : String)
deriving DecidableEq

/-- The ark_sdk.auth exception classes raised by the validator. Per the test
suite (test_exceptions.py), ExpiredTokenError and AuthInvalidTokenError are
siblings of TokenValidationError under AuthError, so an except clause for
TokenValidationError does not catch them. -/
inductive AuthError where
  | tokenValidationError (msg : String)
  | expiredTokenError (msg : String)
  | authInvalidTokenError (msg : String)
deriving DecidableEq

/-- ark_sdk.auth.config.AuthConfig. The okta_audience and okta_issuer fields
are read by validator.py and constructed by the test suite (conftest.py,
test_config.py) although the shipped config.py omits them; they are included
here as optional fields defaulting to none, like the jwt fields. -/
structure AuthConfig where
  jwt_algorithm : String := "RS256"
  jwt_audience : Option String := none
  jwt_issuer : Option String := none
  okta_audience : Option String := none
  okta_issuer : Option String := none
  jwks_url : Option String := none
  jwks_cache_ttl : Int := 3600
  token_validation_timeout : Int := 30
  token_validation_retries : Int := 3
deriving DecidableEq

/-- Python s.startswith(p), computed on the character lists. -/
def pyStartsWith (s p : String) : Bool :=
  p.data.isPrefixOf s.data

/-- Python s.lower(), computed on the character lists. -/
def pyLower (s : String) : String :=
  ⟨s.data.map Char.toLower⟩

/-- Python s.strip(): removes leading and trailing whitespace, computed on
the character lists. -/
def pyStrip (s : String) : String :=
  ⟨((s.data.dropWhile Char.isWhitespace).reverse.dropWhile Char.isWhitespace).reverse⟩

/-- Python truthiness of an optional string: None and the empty string are
falsy. -/
def pyTruthy : Option String → Bool
  | none => false
  | some s => s != ""

/-- The Python expression a or b on optional strings: yields a when a is
truthy, else b. -/
def pyOr (a b : Option String) : Option String :=
  if pyTruthy a then a else b

/-- The audience passed to decode: jwt_audience or okta_audience
(validator.py line 57). -/
def effectiveAudience (c : AuthConfig) : Option String :=
  pyOr c.jwt_audience c.okta_audience

/-- The issuer passed to decode: jwt_issuer or okta_issuer
(validator.py line 58). -/
def effectiveIssuer (c : AuthConfig) : Option String :=
  pyOr c.jwt_issuer c.okta_issuer

/-- The arguments TokenValidator.validate_token passes to the pyjwt decode
call (validator.py lines 60 to 75). -/
structure DecodeArgs where
  algorithms : List String
  audience : Option String
  issuer : Option String
  verify_signature : Bool
  verify_exp : Bool
  verify_aud : Bool
  verify_iss : Bool
deriving DecidableEq

/-- The decode call as built by validator.py: the configured algorithm, the
effective audience and issuer, unconditional signature and expiry checks, and
audience and issuer checks guarded by the Python test audience is not None. -/
def decodeCall (c : AuthConfig) : DecodeArgs :=
  { algorithms := [c.jwt_algorithm]
    audience := effectiveAudience c
    issuer := effectiveIssuer c
    verify_signature := true
    verify_exp := true
    verify_aud := (effectiveAudience c).isSome
    verify_iss := (effectiveIssuer c).isSome }

/-- Environment of one validate_token attempt: the outcomes of the two
effectful calls, get_signing_key_from_jwt and decode. -/
structure AttemptEnv where
  keyFetch : PyOutcome String
  decodeOutcome : PyOutcome Claims
deriving DecidableEq

/-- Routes an exception escaping the try block of validate_token through its
except chain (validator.py lines 77 to 88): ExpiredSignatureError becomes
ExpiredTokenError, InvalidTokenError and DecodeError become
AuthInvalidTokenError, and anything else is rewrapped as
TokenValidationError with the original message appended. -/
def exceptChain : PyOutcome Claims → Except AuthError Claims
  | .ok p => .ok p
  | .expiredSignatureError _ => .error (.expiredTokenError "Token has expired")
  | .invalidTokenError _ => .error (.authInvalidTokenError "Invalid token")
  | .decodeFailed _ => .error (.authInvalidTokenError "Token could not be decoded")
  | .otherException m => .error (.tokenValidationError ("Token validation failed: " ++ m))

/-- ark_sdk TokenValidator.validate_token on a fresh validator. When jwks_url
is not truthy, _get_jwks_client leaves the client as None and the function
raises TokenValidationError("JWKS URL not configured"), which the final
except Exception clause rewraps; no key fetch or decode happens. Otherwise
the signing key fetch and then the decode run, with raised exceptions routed
through the except chain. -/
def validate_token (c : AuthConfig) (env : AttemptEnv) : Except AuthError Claims :=
  if !(pyTruthy c.jwks_url) then
    .error (.tokenValidationError "Token validation failed: JWKS URL not configured")
  else
    match env.keyFetch with
    | .ok _ => exceptChain env.decodeOutcome
    | .expiredSignatureError m => exceptChain (.expiredSignatureError m)
    | .invalidTokenError m => exceptChain (.invalidTokenError m)
    | .decodeFailed m => exceptChain (.decodeFailed m)
    | .otherException m => exceptChain (.otherException m)

deriving instance DecidableEq for Except

/-- Result of validate_token_with_retry: the final outcome, the number of
validate_token calls made, and the backoff sleeps performed, in milliseconds,
in order. -/
structure RetryResult where
  result : Except AuthError Claims
  attempts : Nat
  sleeps : List Nat
deriving DecidableEq

/-- Base backoff delay in milliseconds: the fixed 0.1 seconds of
asyncio.sleep(0.1 * (2 ** attempt)) in validate_token_with_retry. -/
def baseDelayMs : Nat := 100

/-- One iteration of the retry loop of validate_token_with_retry
(validator.py lines 90 to 117). The counter a is the 0-based loop index
attempt and fuel is the number of iterations left. The except clause names
only TokenValidationError, so expired and invalid token errors propagate
immediately; between failed attempts the loop sleeps
baseDelayMs * 2 ^ attempt, except after the final attempt; when the loop
ends it raises the recorded last error, or the fallback
TokenValidationError when no attempt ran. -/
def retryGo (c : AuthConfig) (envs : Nat → AttemptEnv) :
    Nat → Nat → Option AuthError → List Nat → RetryResult
  | a, 0, lastErr, sleeps =>
    ⟨.error (lastErr.getD (.tokenValidationError "Token validation failed after retries")),
      a, sleeps.reverse⟩
  | a, fuel + 1, _, sleeps =>
    match validate_token c (envs a) with
    | .ok payload => ⟨.ok payload, a + 1, sleeps.reverse⟩
    | .error (.tokenValidationError m) =>
      if fuel = 0 then
        ⟨.error (.tokenValidationError m), a + 1, sleeps.reverse⟩
      else
        retryGo c envs (a + 1) fuel (some (.tokenValidationError m))
          (baseDelayMs * 2 ^ a :: sleeps)
    | .error e => ⟨.error e, a + 1, sleeps.reverse⟩

/-- ark_sdk TokenValidator.validate_token_with_retry: iterates validate_token
over range(token_validation_retries); a nonpositive configured retry count
yields an empty range, so no attempt runs. -/
def validate_token_with_retry (c : AuthConfig) (envs : Nat → AttemptEnv) : RetryResult :=
  retryGo c envs 0 c.token_validation_retries.toNat none []

/-- True exactly on the error class caught by except TokenValidationError in
the retry loop. -/
def isTransientErr : Except AuthError Claims → Bool
  | .error (.tokenValidationError _) => true
  | _ => false

/-- True on the deterministic failures that the retry loop never catches. -/
def isDeterministicErr : Except AuthError Claims → Bool
  | .error (.expiredTokenError _) => true
  | .error (.authInvalidTokenError _) => true
  | _ => false

/-- ark_auth.config.AuthSettings: the Okta identity provider profile. -/
structure AuthSettings where
  okta_issuer : Option String := none
  okta_audience : Option String := none
deriving DecidableEq

/-- The hardcoded payload ark_auth validate_jwt returns when the Okta
configuration is not set. -/
def mockPayload : Claims :=
  [("sub", "test-user"), ("aud", "test-audience"),
   ("iss", "https://test.okta.com/oauth2/default")]

/-- ark_auth.validator.validate_jwt: when okta_issuer or okta_audience is not
truthy it logs a warning and returns the mock payload without touching the
network; otherwise the key fetch and decode run, with jwt.InvalidTokenError
family exceptions mapped to ValueError("Invalid token") and any other
exception to ValueError("Token validation failed"). Errors are modelled as
the ValueError message. -/
def validate_jwt (s : AuthSettings) (env : AttemptEnv) : Except String Claims :=
  if !(pyTruthy s.okta_issuer) || !(pyTruthy s.okta_audience) then
    .ok mockPayload
  else
    match env.keyFetch with
    | .ok _ =>
      match env.decodeOutcome with
      | .ok p => .ok p
      | .expiredSignatureError _ => .error "Invalid token"
      | .invalidTokenError _ => .error "Invalid token"
      | .decodeFailed _ => .error "Invalid token"
      | .otherException _ => .error "Token validation failed"
    | .expiredSignatureError _ => .error "Invalid token"
    | .invalidTokenError _ => .error "Invalid token"
    | .decodeFailed _ => .error "Invalid token"
    | .otherException _ => .error "Token validation failed"

/-- Process environment visible to the gateway: the raw value of the
ARK_SKIP_AUTH variable, looked up per request. -/
structure Env where
  ark_skip_auth : Option String := none
deriving DecidableEq

/-- The Python expression
os.getenv("ARK_SKIP_AUTH", "false").lower() == "true", evaluated inside
dispatch on every request. -/
def skipAuthEnabled (e : Env) : Bool :=
  pyLower (e.ark_skip_auth.getD "false") == "true"

/-- Modelled from the spec: the function is_route_authenticated of
ark_api.auth.config is not in the source tree (only its caller middleware.py
and inspection scripts import it). Per the RouteClassification of the spec, a
set of path patterns, exact or prefix, is marked public and everything not
matched is protected by default. -/
def is_route_authenticated (publicRoutes : List String) (path : String) : Bool :=
  !(publicRoutes.any (fun r => r == path || pyStartsWith path r))

/-- Outcome of TokenValidator.validate_token_with_retry as observed by the
dependency wrapper: a payload, a raised AuthError, or any other raised
exception. -/
inductive VOutcome where
  | ok (payload : Claims)
  | err (e : AuthError)
  | unexpected (msg : String)
deriving DecidableEq

/-- An HTTPException as raised by the auth dependencies: status code and
detail string. -/
structure HTTPExc where
  status : Nat
  detail : String
deriving DecidableEq

/-- Modelled from the spec: create_auth_exception of ark_sdk.auth.exceptions
is not in the source tree (only imported by dependencies.py). Per the spec,
authentication failures surface as HTTP 401 with a JSON detail body, matching
the 401 HTTPException pattern of ark_auth.exceptions. -/
def create_auth_exception (msg : String) : HTTPExc := ⟨401, msg⟩

/-- Result of the ark_sdk validate_token dependency: the payload or the
raised HTTPException, plus whether validate_token_with_retry was invoked. -/
structure DepResult where
  outcome : Except HTTPExc Claims
  validatorInvoked : Bool
deriving DecidableEq

/-- ark_sdk.auth.dependencies.validate_token: requires the exact case
sensitive prefix "Bearer ", takes the remainder after the first 7 characters
as the token with no whitespace stripping, rejects an empty remainder before
touching the validator, and maps every exception raised by the validator to
create_auth_exception("Token validation failed") via its except Exception
clause. -/
def sdk_validate_token (h : String) (validator : String → VOutcome) : DepResult :=
  if !(pyStartsWith h "Bearer ") then
    ⟨.error (create_auth_exception "Invalid authorization header format"), false⟩
  else if h.drop 7 == "" then
    ⟨.error (create_auth_exception "Missing token"), false⟩
  else
    match validator (h.drop 7) with
    | .ok p => ⟨.ok p, true⟩
    | .err _ => ⟨.error (create_auth_exception "Token validation failed"), true⟩
    | .unexpected _ => ⟨.error (create_auth_exception "Token validation failed"), true⟩

/-- Externally visible gateway response: the downstream response, or a JSON
error body with a status code and a detail string. -/
inductive GResponse where
  | forwarded
  | json (status : Nat) (detail : String)
deriving DecidableEq

/-- Observable result of one AuthMiddleware.dispatch call: the response,
whether validate_token_with_retry was invoked, and whether the Authorization
header was read at all. -/
structure GatewayResult where
  response : GResponse
  validatorInvoked : Bool
  headerInspected : Bool
deriving DecidableEq

/-- ark_api.auth.middleware.AuthMiddleware.dispatch: re-reads ARK_SKIP_AUTH
from the environment on each request and forwards immediately when it is
enabled; forwards public routes without reading the header; on protected
routes it rejects a missing header or one without the exact "Bearer " prefix
with a fixed 401 body, and otherwise calls the ark_sdk validate_token
dependency, mapping a raised HTTPException to a JSONResponse with the same
status and detail and forwarding on success. -/
def auth_middleware_dispatch (env : Env) (publicRoutes : List String) (path : String)
    (authorization : Option String) (validator : String → VOutcome) : GatewayResult :=
  if skipAuthEnabled env then ⟨.forwarded, false, false⟩
  else if is_route_authenticated publicRoutes path then
    match authorization with
    | none => ⟨.json 401 "Missing or invalid authorization header", false, true⟩
    | some h =>
      if h == "" || !(pyStartsWith h "Bearer ") then
        ⟨.json 401 "Missing or invalid authorization header", false, true⟩
      else
        match sdk_validate_token h validator with
        | ⟨.ok _, inv⟩ => ⟨.forwarded, inv, true⟩
        | ⟨.error exc, inv⟩ => ⟨.json exc.status exc.detail, inv, true⟩
  else ⟨.forwarded, false, false⟩

/-- ark_api.auth.authentication.AuthenticationMiddleware.dispatch: forwards
when the path has a registered unprotected prefix without reading the header;
otherwise requires a Bearer header and decodes token = header.split(" ")[1]
against the secret key, mapping a PyJWTError to a 401 HTTPException. The
decode outcome is abstracted by the decodeOk oracle; the Bool component
records whether the header was read. -/
def authentication_middleware_dispatch (unprotectedRoutes : List String) (path : String)
    (authorization : Option String) (decodeOk : String → Bool) : GResponse × Bool :=
  if unprotectedRoutes.any (fun r => pyStartsWith path r) then (.forwarded, false)
  else
    match authorization with
    | none => (.json 401 "Missing or invalid Authorization header", true)
    | some h =>
      if h == "" || !(pyStartsWith h "Bearer ") then
        (.json 401 "Missing or invalid Authorization header", true)
      else if decodeOk ((h.splitOn " ").getD 1 "") then (.forwarded, true)
      else (.json 401 "Invalid token", true)

/-- The shared 401 HTTPException of ark_auth.exceptions. -/
def invalidTokenException : HTTPExc := ⟨401, "Invalid or expired token"⟩

/-- ark_auth.dependencies.validate_token: re-reads ARK_SKIP_AUTH on every
call and returns immediately when it is enabled; otherwise requires a Bearer
header and runs validate_jwt on header.split(" ")[1], mapping ValueError to
the shared 401 InvalidTokenException. The validate_jwt outcome is abstracted
by the jwtOk oracle. -/
def arkauth_validate_token (env : Env) (authorization : Option String)
    (jwtOk : String → Bool) : Except HTTPExc Unit :=
  if skipAuthEnabled env then .ok ()
  else
    match authorization with
    | none => .error invalidTokenException
    | some h =>
      if !(pyStartsWith h "Bearer ") then .error invalidTokenException
      else if jwtOk ((h.splitOn " ").getD 1 "") then .ok ()
      else .error invalidTokenException

/-- Configuration with three retries and a jwks url, as in the retry policy
scenario of the spec. -/
def retry3Config : AuthConfig :=
  { jwks_url := some "https://test.okta.com/.well-known/jwks.json" }

/-- Attempt environment where the key fetch raises a connection error. -/
def failEnv : AttemptEnv := ⟨.otherException "connection error", .otherException "connection error"⟩

/-- Attempt environment where the key fetch and the decode both succeed. -/
def okEnv : AttemptEnv := ⟨.ok "key-material", .ok [("sub", "user")]⟩

/-- A key source that always fails. -/
def alwaysFailEnvs : Nat → AttemptEnv := fun _ => failEnv

/-- A key source that fails twice and then succeeds. -/
def failTwiceEnvs : Nat → AttemptEnv := fun k => if k < 2 then failEnv else okEnv

/-- Attempt environment where the key fetch succeeds and the decode raises
ExpiredSignatureError. -/
def expiredEnv : AttemptEnv := ⟨.ok "key-material", .expiredSignatureError "exp"⟩

/-- A key source that fails transiently once, after which the token turns
out to be expired. -/
def expiredSecondEnvs : Nat → AttemptEnv := fun k => if k = 0 then failEnv else expiredEnv

/-- Configuration with both the generic jwt profile and the Okta profile
set, mirroring the environment of the repository test
test_auth_flow_with_config_priority. -/
def priorityConfig : AuthConfig :=
  { jwt_audience := some "jwt-audience", jwt_issuer := some "jwt-issuer",
    okta_audience := some "okta-audience", okta_issuer := some "okta-issuer",
    jwks_url := some "https://okta.com/.well-known/jwks.json" }

/-- An environment with ARK_SKIP_AUTH unset. -/
def envOff : Env := ⟨some "false"⟩

/-- An environment with ARK_SKIP_AUTH set to TRUE. -/
def envOn : Env := ⟨some "TRUE"⟩

/-- A sample public route table. -/
def pubRoutes : List String := ["/health", "/docs", "/openapi.json"]

/-- A validator oracle that always raises ExpiredTokenError. -/
def expiredValidator : String → VOutcome :=
  fun _ => .err (.expiredTokenError "Token has expired")

/-- A validator oracle that always raises AuthInvalidTokenError. -/
def invalidValidator : String → VOutcome :=
  fun _ => .err (.authInvalidTokenError "Invalid token")

/-- The retry loop makes at most as many validate_token calls as it has
iterations left. -/
theorem retryGo_attempts_le (c : AuthConfig) (envs : Nat → AttemptEnv) :
    ∀ (fuel a : Nat) (lastErr : Option AuthError) (sleeps : List Nat),
      (retryGo c envs a fuel lastErr sleeps).attempts ≤ a + fuel := by
  intro fuel
  induction fuel with
  | zero => intro a lastErr sleeps; simp [retryGo]
  | succ n ih =>
    intro a lastErr sleeps
    cases hv : validate_token c (envs a) with
    | ok p => simp [retryGo, hv]
    | error e =>
      cases e with
      | tokenValidationError m =>
        by_cases hn : n = 0
        · subst hn; simp [retryGo, hv]
        · simp only [retryGo, hv]
          rw [if_neg hn]
          exact le_trans (ih (a + 1) _ _) (by omega)
      | expiredTokenError m => simp [retryGo, hv]
      | authInvalidTokenError m => simp [retryGo, hv]

/-- When every remaining attempt fails with the retried error class, the loop
runs all of them and ends with the error of the last attempt. -/
theorem retryGo_all_transient (c : AuthConfig) (envs : Nat → AttemptEnv) :
    ∀ (fuel a : Nat) (lastErr : Option AuthError) (sleeps : List Nat),
      0 < fuel →
      (∀ j, j < fuel → isTransientErr (validate_token c (envs (a + j))) = true) →
      (retryGo c envs a fuel lastErr sleeps).result = validate_token c (envs (a + fuel - 1)) ∧
      (retryGo c envs a fuel lastErr sleeps).attempts = a + fuel := by
  intro fuel
  induction fuel with
  | zero => intro a lastErr sleeps h; exact absurd h (by omega)
  | succ n ih =>
    intro a lastErr sleeps _ htrans
    have h0 := htrans 0 (by omega)
    rw [Nat.add_zero] at h0
    cases hv : validate_token c (envs a) with
    | ok p => rw [hv] at h0; simp [isTransientErr] at h0
    | error e =>
      cases e with
      | tokenValidationError m =>
        by_cases hn : n = 0
        · subst hn
          refine ⟨?_, by simp [retryGo, hv]⟩
          have ha : a + 1 - 1 = a := by omega
          rw [ha, hv]
          simp [retryGo, hv]
        · have hpos : 0 < n := Nat.pos_of_ne_zero hn
          have htrans2 : ∀ j, j < n →
              isTransientErr (validate_token c (envs (a + 1 + j))) = true := by
            intro j hj
            have := htrans (j + 1) (by omega)
            rwa [show a + (j + 1) = a + 1 + j by omega] at this
          obtain ⟨hres, hatt⟩ :=
            ih (a + 1) (some (.tokenValidationError m)) (baseDelayMs * 2 ^ a :: sleeps)
              hpos htrans2
          have hstep : retryGo c envs a (n + 1) lastErr sleeps
              = retryGo c envs (a + 1) n (some (.tokenValidationError m))
                  (baseDelayMs * 2 ^ a :: sleeps) := by
            simp only [retryGo, hv]
            rw [if_neg hn]
          rw [hstep]
          refine ⟨?_, by rw [hatt]; omega⟩
          rw [hres]
          have hidx : a + 1 + n - 1 = a + (n + 1) - 1 := by omega
          rw [hidx]
      | expiredTokenError m => rw [hv] at h0; simp [isTransientErr] at h0
      | authInvalidTokenError m => rw [hv] at h0; simp [isTransientErr] at h0

/-- When the first nontransient result is a deterministic failure, the loop
stops at it: the error of that attempt is returned and no further attempt
runs. -/
theorem retryGo_first_deterministic (c : AuthConfig) (envs : Nat → AttemptEnv) :
    ∀ (fuel k a : Nat) (lastErr : Option AuthError) (sleeps : List Nat),
      k < fuel →
      (∀ j, j < k → isTransientErr (validate_token c (envs (a + j))) = true) →
      isDeterministicErr (validate_token c (envs (a + k))) = true →
      (retryGo c envs a fuel lastErr sleeps).result = validate_token c (envs (a + k)) ∧
      (retryGo c envs a fuel lastErr sleeps).attempts = a + k + 1 := by
  intro fuel
  induction fuel with
  | zero => intro k a lastErr sleeps hk; exact absurd hk (by omega)
  | succ n ih =>
    intro k a lastErr sleeps hk htrans hdet
    cases k with
    | zero =>
      rw [Nat.add_zero] at hdet
      cases hv : validate_token c (envs a) with
      | ok p => rw [hv] at hdet; simp [isDeterministicErr] at hdet
      | error e =>
        cases e with
        | tokenValidationError m => rw [hv] at hdet; simp [isDeterministicErr] at hdet
        | expiredTokenError m =>
          refine ⟨?_, by simp [retryGo, hv]⟩
          simp only [Nat.add_zero]
          rw [hv]
          simp [retryGo, hv]
        | authInvalidTokenError m =>
          refine ⟨?_, by simp [retryGo, hv]⟩
          simp only [Nat.add_zero]
          rw [hv]
          simp [retryGo, hv]
    | succ k2 =>
      have h0 := htrans 0 (by omega)
      rw [Nat.add_zero] at h0
      cases hv : validate_token c (envs a) with
      | ok p => rw [hv] at h0; simp [isTransientErr] at h0
      | error e =>
        cases e with
        | tokenValidationError m =>
          have hn : n ≠ 0 := by omega
          have htrans2 : ∀ j, j < k2 →
              isTransientErr (validate_token c (envs (a + 1 + j))) = true := by
            intro j hj
            have := htrans (j + 1) (by omega)
            rwa [show a + (j + 1) = a + 1 + j by omega] at this
          have hdet2 : isDeterministicErr (validate_token c (envs (a + 1 + k2))) = true := by
            rwa [show a + (k2 + 1) = a + 1 + k2 by omega] at hdet
          obtain ⟨hres, hatt⟩ :=
            ih k2 (a + 1) (some (.tokenValidationError m)) (baseDelayMs * 2 ^ a :: sleeps)
              (by omega) htrans2 hdet2
          have hstep : retryGo c envs a (n + 1) lastErr sleeps
              = retryGo c envs (a + 1) n (some (.tokenValidationError m))
                  (baseDelayMs * 2 ^ a :: sleeps) := by
            simp only [retryGo, hv]
            rw [if_neg hn]
          rw [hstep]
          refine ⟨?_, by rw [hatt]; omega⟩
          rw [hres]
          have hidx : a + 1 + k2 = a + (k2 + 1) := by omega
          rw [hidx]
        | expiredTokenError m => rw [hv] at h0; simp [isTransientErr] at h0
        | authInvalidTokenError m => rw [hv] at h0; simp [isTransientErr] at h0

/-- The sleeps recorded by the retry loop extend the accumulator with a run
of consecutive powers of two times the base delay, starting at the current
attempt index. -/
theorem retryGo_sleeps_geometric (c : AuthConfig) (envs : Nat → AttemptEnv) :
    ∀ (fuel a : Nat) (lastErr : Option AuthError) (sleeps : List Nat),
      ∃ len, (retryGo c envs a fuel lastErr sleeps).sleeps
        = sleeps.reverse ++ (List.range' a len).map (fun i => baseDelayMs * 2 ^ i) := by
  intro fuel
  induction fuel with
  | zero => intro a lastErr sleeps; exact ⟨0, by simp [retryGo]⟩
  | succ n ih =>
    intro a lastErr sleeps
    cases hv : validate_token c (envs a) with
    | ok p => exact ⟨0, by simp [retryGo, hv]⟩
    | error e =>
      cases e with
      | tokenValidationError m =>
        by_cases hn : n = 0
        · subst hn; exact ⟨0, by simp [retryGo, hv]⟩
        · obtain ⟨len, hl⟩ :=
            ih (a + 1) (some (.tokenValidationError m)) (baseDelayMs * 2 ^ a :: sleeps)
          refine ⟨len + 1, ?_⟩
          have hstep : retryGo c envs a (n + 1) lastErr sleeps
              = retryGo c envs (a + 1) n (some (.tokenValidationError m))
                  (baseDelayMs * 2 ^ a :: sleeps) := by
            simp only [retryGo, hv]
            rw [if_neg hn]
          rw [hstep, hl, List.range'_succ]
          simp
      | expiredTokenError m => exact ⟨0, by simp [retryGo, hv]⟩
      | authInvalidTokenError m => exact ⟨0, by simp [retryGo, hv]⟩

/-- The effective value is present exactly when the first profile value is
truthy or the second profile value is present at all. -/
theorem pyOr_isSome (a b : Option String) :
    (pyOr a b).isSome = (pyTruthy a || b.isSome) := by
  cases h : pyTruthy a with
  | true =>
    cases a with
    | none => simp [pyTruthy] at h
    | some s =>
      have hs : s ≠ "" := by simpa [pyTruthy] using h
      simp [pyOr, pyTruthy, hs]
  | false => simp [pyOr, h]

/-- Every HTTPException produced by the ark_sdk validate_token dependency
carries status 401. -/
theorem sdk_dep_error_status (h : String) (v : String → VOutcome) (exc : HTTPExc)
    (hx : (sdk_validate_token h v).outcome = .error exc) : exc.status = 401 := by
  unfold sdk_validate_token at hx
  by_cases h1 : (!(pyStartsWith h "Bearer ")) = true
  · rw [if_pos h1] at hx
    simp only [Except.error.injEq] at hx
    rw [← hx]
    rfl
  · rw [if_neg h1] at hx
    by_cases h2 : (h.drop 7 == "") = true
    · rw [if_pos h2] at hx
      simp only [Except.error.injEq] at hx
      rw [← hx]
      rfl
    · rw [if_neg h2] at hx
      cases hv : v (h.drop 7) with
      | ok p => rw [hv] at hx; simp at hx
      | err e =>
        rw [hv] at hx
        simp only [Except.error.injEq] at hx
        rw [← hx]
        rfl
      | unexpected m =>
        rw [hv] at hx
        simp only [Except.error.injEq] at hx
        rw [← hx]
        rfl

/-- C1: the fail-closed claim is violated by ark_auth validate_jwt. With the
identity provider configuration absent (okta_issuer and okta_audience both
unset), validate_jwt does not fail with a configuration error: whatever the
key fetch and decode environment would do, it returns the hardcoded mock
claim set, silently succeeding without any network call. By contrast, the
ark_sdk TokenValidator with no jwks_url configured raises the wrapped
configuration TokenValidationError for every environment, never a claim
set, which is the behavior the claim requires of both validators. -/
theorem validate_jwt_missing_config_returns_mock (env : AttemptEnv) :
    validate_jwt {} env = .ok mockPayload
    ∧ validate_token { jwks_url := none } env
        = .error (.tokenValidationError "Token validation failed: JWKS URL not configured") :=
  ⟨rfl, rfl⟩

/-- C2: route classification is default deny: a path counts as
authenticated (protected) unless some registered public entry equals it or
is a prefix of it; and on a public path both middleware variants forward
the request with the header never read and the validator never invoked,
whatever the Authorization header holds, including a missing one. -/
theorem public_paths_forwarded_uninspected (publicRoutes : List String) (path : String) :
    (is_route_authenticated publicRoutes path = false
      ↔ ∃ r ∈ publicRoutes, r = path ∨ pyStartsWith path r = true)
    ∧ (∀ env auth validator, is_route_authenticated publicRoutes path = false →
        auth_middleware_dispatch env publicRoutes path auth validator
          = ⟨.forwarded, false, false⟩)
    ∧ (∀ auth decodeOk, publicRoutes.any (fun r => pyStartsWith path r) = true →
        authentication_middleware_dispatch publicRoutes path auth decodeOk
          = (.forwarded, false)) := by
  refine ⟨?_, ?_, ?_⟩
  · simp [is_route_authenticated, List.any_eq_true]
  · intro env auth validator hpub
    by_cases hskip : skipAuthEnabled env
    · simp [auth_middleware_dispatch, hskip]
    · simp [auth_middleware_dispatch, hskip, hpub]
  · intro auth decodeOk hpre
    simp [authentication_middleware_dispatch, hpre]

/-- Witness for C2 at the public path /health/live under a prefix entry,
with a garbage header for one variant and a missing header for the
other. -/
theorem public_paths_forwarded_uninspected_witness :
    auth_middleware_dispatch envOff pubRoutes "/health/live" (some "garbage") expiredValidator
      = ⟨.forwarded, false, false⟩
    ∧ authentication_middleware_dispatch pubRoutes "/health/live" none (fun _ => false)
      = (.forwarded, false) :=
  ⟨(public_paths_forwarded_uninspected pubRoutes "/health/live").2.1 envOff (some "garbage")
      expiredValidator (by decide),
    (public_paths_forwarded_uninspected pubRoutes "/health/live").2.2 none (fun _ => false)
      (by decide)⟩

/-- C3: the retry wrapper makes at most token_validation_retries calls to
validate_token; when every attempt fails with the retried class
TokenValidationError it runs all attempts and ends with the error of the
last attempt; and a deterministic ExpiredTokenError or
AuthInvalidTokenError reached after any run of transient failures is
returned at once, with no further attempt and no retry. -/
theorem validate_token_with_retry_policy (c : AuthConfig) (envs : Nat → AttemptEnv) :
    (validate_token_with_retry c envs).attempts ≤ c.token_validation_retries.toNat
    ∧ (0 < c.token_validation_retries.toNat →
        (∀ j, j < c.token_validation_retries.toNat →
          isTransientErr (validate_token c (envs j)) = true) →
        (validate_token_with_retry c envs).result
            = validate_token c (envs (c.token_validation_retries.toNat - 1))
          ∧ (validate_token_with_retry c envs).attempts = c.token_validation_retries.toNat)
    ∧ (∀ k, k < c.token_validation_retries.toNat →
        (∀ j, j < k → isTransientErr (validate_token c (envs j)) = true) →
        isDeterministicErr (validate_token c (envs k)) = true →
        (validate_token_with_retry c envs).result = validate_token c (envs k)
          ∧ (validate_token_with_retry c envs).attempts = k + 1) := by
  refine ⟨?_, ?_, ?_⟩
  · have := retryGo_attempts_le c envs (c.token_validation_retries.toNat) 0 none []
    simpa [validate_token_with_retry] using this
  · intro hpos htrans
    have := retryGo_all_transient c envs (c.token_validation_retries.toNat) 0 none [] hpos
      (by intro j hj; simpa using htrans j hj)
    simpa [validate_token_with_retry] using this
  · intro k hk htrans hdet
    have := retryGo_first_deterministic c envs (c.token_validation_retries.toNat) k 0 none []
      hk (by intro j hj; simpa using htrans j hj) (by simpa using hdet)
    simpa [validate_token_with_retry] using this

/-- Witness for C3: with three configured retries, a key source failing on
every attempt yields the transient error of the third attempt after exactly
three attempts, and a token found expired on the second attempt after one
transient failure stops the loop at two attempts with the expired error. -/
theorem validate_token_with_retry_policy_witness :
    ((validate_token_with_retry retry3Config alwaysFailEnvs).result
        = .error (.tokenValidationError "Token validation failed: connection error")
      ∧ (validate_token_with_retry retry3Config alwaysFailEnvs).attempts = 3)
    ∧ ((validate_token_with_retry retry3Config expiredSecondEnvs).result
        = .error (.expiredTokenError "Token has expired")
      ∧ (validate_token_with_retry retry3Config expiredSecondEnvs).attempts = 2) := by
  constructor
  · have h := (validate_token_with_retry_policy retry3Config alwaysFailEnvs).2.1
      (by decide) (fun j hj => rfl)
    exact ⟨h.1, h.2⟩
  · have h := (validate_token_with_retry_policy retry3Config expiredSecondEnvs).2.2 1
      (by decide)
      (fun j hj => by
        have hj0 : j = 0 := Nat.lt_one_iff.mp hj
        subst hj0
        rfl)
      (by decide)
    exact ⟨h.1, h.2⟩

/-- C4: with both profiles set, the effective audience and issuer used in
verification come from the generic jwt profile, not from the Okta
enterprise identity provider profile: the repository test
test_auth_flow_with_config_priority asserts that decode receives the Okta
values, but the code computes jwt_audience or okta_audience, so decode
receives the jwt values. -/
theorem effective_values_prefer_jwt_profile :
    effectiveAudience priorityConfig = some "jwt-audience"
    ∧ effectiveIssuer priorityConfig = some "jwt-issuer"
    ∧ (decodeCall priorityConfig).audience ≠ some "okta-audience"
    ∧ (decodeCall priorityConfig).issuer ≠ some "okta-issuer" :=
  ⟨rfl, rfl, by decide, by decide⟩

/-- C5 counterexample: two distinct validator failure kinds, an expired
token and an invalid token, produce the same 401 body with the same detail
text from the gateway, so the detail text is not specific to the error
kind. -/
theorem gateway_detail_not_kind_specific :
    (auth_middleware_dispatch envOff pubRoutes "/v1/agents" (some "Bearer abc")
        expiredValidator).response = .json 401 "Token validation failed"
    ∧ (auth_middleware_dispatch envOff pubRoutes "/v1/agents" (some "Bearer abc")
        invalidValidator).response = .json 401 "Token validation failed"
    ∧ expiredValidator "abc" ≠ invalidValidator "abc" :=
  ⟨by decide, by decide, by decide⟩

/-- C5 amended: every gateway response is either the forwarded downstream
response or a 401 JSON detail body, never any other status; and on a
protected route with a well formed Bearer header, every validator failure,
AuthError and unexpected exception alike, is mapped to the one fixed
generic detail, Token validation failed, which is independent of the token
and of the failure, so no internal exception text and no raw token is
leaked. -/
theorem gateway_maps_failures_to_401 (env : Env) (publicRoutes : List String)
    (path : String) (auth : Option String) (validator : String → VOutcome) :
    ((auth_middleware_dispatch env publicRoutes path auth validator).response = .forwarded
      ∨ ∃ d, (auth_middleware_dispatch env publicRoutes path auth validator).response
          = .json 401 d)
    ∧ (∀ h, auth = some h → pyStartsWith h "Bearer " = true → h.drop 7 ≠ "" →
        skipAuthEnabled env = false → is_route_authenticated publicRoutes path = true →
        (∀ p, validator (h.drop 7) ≠ .ok p) →
        (auth_middleware_dispatch env publicRoutes path auth validator).response
          = .json 401 "Token validation failed") := by
  constructor
  · cases hskip : skipAuthEnabled env with
    | true => left; simp [auth_middleware_dispatch, hskip]
    | false =>
      cases hprot : is_route_authenticated publicRoutes path with
      | false => left; simp [auth_middleware_dispatch, hskip, hprot]
      | true =>
        cases auth with
        | none =>
          right
          exact ⟨"Missing or invalid authorization header",
            by simp [auth_middleware_dispatch, hskip, hprot]⟩
        | some h =>
          cases hh : (h == "" || !(pyStartsWith h "Bearer ")) with
          | true =>
            right
            exact ⟨"Missing or invalid authorization header",
              by simp [auth_middleware_dispatch, hskip, hprot, hh]⟩
          | false =>
            rcases hd : sdk_validate_token h validator with ⟨outcome, inv⟩
            cases outcome with
            | ok p =>
              left
              simp [auth_middleware_dispatch, hskip, hprot, hh, hd]
            | error exc =>
              right
              refine ⟨exc.detail, ?_⟩
              have h401 : exc.status = 401 :=
                sdk_dep_error_status h validator exc (by rw [hd])
              simp [auth_middleware_dispatch, hskip, hprot, hh, hd, h401]
  · intro h hauth hbear hdrop hskip hprot hfail
    subst hauth
    have hne : h ≠ "" := by
      intro he
      exact hdrop (by rw [he]; rfl)
    have hguard : (h == "" || !(pyStartsWith h "Bearer ")) = false := by
      simp [hne, hbear]
    have hdropb : (h.drop 7 == "") = false := by
      simp [hdrop]
    cases hvv : validator (h.drop 7) with
    | ok p => exact absurd hvv (hfail p)
    | err e =>
      have hdep : sdk_validate_token h validator
          = ⟨.error (create_auth_exception "Token validation failed"), true⟩ := by
        unfold sdk_validate_token
        rw [if_neg (by simp [hbear]), if_neg (by simp [hdropb]), hvv]
      simp [auth_middleware_dispatch, hskip, hprot, hguard, hdep, create_auth_exception]
    | unexpected m =>
      have hdep : sdk_validate_token h validator
          = ⟨.error (create_auth_exception "Token validation failed"), true⟩ := by
        unfold sdk_validate_token
        rw [if_neg (by simp [hbear]), if_neg (by simp [hdropb]), hvv]
      simp [auth_middleware_dispatch, hskip, hprot, hguard, hdep, create_auth_exception]

/-- Witness for C5 at a protected path with an unexpected validator
exception: the gateway answers 401 with the generic detail. -/
theorem gateway_maps_failures_to_401_witness :
    (auth_middleware_dispatch envOff pubRoutes "/v1/agents" (some "Bearer abc")
        (fun _ => .unexpected "boom")).response = .json 401 "Token validation failed" :=
  (gateway_maps_failures_to_401 envOff pubRoutes "/v1/agents" (some "Bearer abc")
      (fun _ => .unexpected "boom")).2 "Bearer abc" rfl (by decide) (by decide)
    (by decide) (by decide) (fun p hp => VOutcome.noConfusion hp)

/-- C6 counterexample: on a protected route the header of a Bearer prefix
followed by a second space carries a token that strips to the empty string,
yet the gateway does not reject it as a missing credential without the
validator: it invokes the validator on the whitespace token. -/
theorem whitespace_token_reaches_validator :
    (auth_middleware_dispatch envOff pubRoutes "/v1/agents" (some "Bearer  ")
        invalidValidator).validatorInvoked = true
    ∧ "Bearer  ".drop 7 = " "
    ∧ pyStrip " " = "" :=
  ⟨by decide, by decide, by decide⟩

/-- C6 amended: on a protected route with the bypass off, a missing
Authorization header, a header without the exact case sensitive prefix
Bearer followed by one space, and a header that is exactly that prefix with
nothing after it are each rejected with a 401 structured missing credential
body without the validator ever being invoked; there is no case folding, no
whitespace tolerance, and a whitespace-only token is not part of this fast
path. -/
theorem missing_credential_rejected_before_validator (env : Env)
    (publicRoutes : List String) (path : String) (validator : String → VOutcome)
    (hskip : skipAuthEnabled env = false)
    (hprot : is_route_authenticated publicRoutes path = true) :
    (auth_middleware_dispatch env publicRoutes path none validator
        = ⟨.json 401 "Missing or invalid authorization header", false, true⟩)
    ∧ (∀ h, pyStartsWith h "Bearer " = false →
        auth_middleware_dispatch env publicRoutes path (some h) validator
          = ⟨.json 401 "Missing or invalid authorization header", false, true⟩)
    ∧ (auth_middleware_dispatch env publicRoutes path (some "Bearer ") validator
        = ⟨.json 401 "Missing token", false, true⟩) := by
  refine ⟨?_, ?_, ?_⟩
  · simp [auth_middleware_dispatch, hskip, hprot]
  · intro h hb
    simp [auth_middleware_dispatch, hskip, hprot, hb]
  · have hguard : (("Bearer " == "") || !(pyStartsWith "Bearer " "Bearer ")) = false := by
      decide
    have hdep : sdk_validate_token "Bearer " validator
        = ⟨.error (create_auth_exception "Missing token"), false⟩ := by
      unfold sdk_validate_token
      rw [if_neg (by decide), if_pos (by decide)]
    simp [auth_middleware_dispatch, hskip, hprot, hguard, hdep, create_auth_exception]
    decide

/-- Witness for C6 on the protected path /v1/agents with a wrong scheme
header and with the bare Bearer prefix. -/
theorem missing_credential_rejected_before_validator_witness :
    (auth_middleware_dispatch envOff pubRoutes "/v1/agents" (some "Basic abc")
        invalidValidator = ⟨.json 401 "Missing or invalid authorization header", false, true⟩)
    ∧ (auth_middleware_dispatch envOff pubRoutes "/v1/agents" (some "Bearer ")
        invalidValidator = ⟨.json 401 "Missing token", false, true⟩) :=
  ⟨(missing_credential_rejected_before_validator envOff pubRoutes "/v1/agents"
      invalidValidator (by decide) (by decide)).2.1 "Basic abc" (by decide),
    (missing_credential_rejected_before_validator envOff pubRoutes "/v1/agents"
      invalidValidator (by decide) (by decide)).2.2⟩

/-- C7 counterexample: with the generic jwt audience unset and the Okta
audience set to the empty string, the effective audience is the empty
string, which is not non-empty, yet the decode call is made with verify_aud
on: the code guards audience verification with an is-not-None test, not a
non-emptiness test. -/
theorem empty_effective_audience_still_verified :
    effectiveAudience { jwt_audience := none, okta_audience := some "" } = some ""
    ∧ (decodeCall { jwt_audience := none, okta_audience := some "" }).verify_aud = true :=
  ⟨rfl, rfl⟩

/-- C7 amended: the decode call always verifies the signature with exactly
the single configured algorithm and always verifies expiry; it verifies the
audience exactly when the effective audience is present (not None), that
is, when the jwt audience is truthy or the Okta audience is set at all, and
likewise for the issuer; and the audience and issuer values passed are the
effective ones. -/
theorem decode_call_verification_flags (c : AuthConfig) :
    (decodeCall c).verify_signature = true
    ∧ (decodeCall c).verify_exp = true
    ∧ (decodeCall c).algorithms = [c.jwt_algorithm]
    ∧ (decodeCall c).audience = effectiveAudience c
    ∧ (decodeCall c).issuer = effectiveIssuer c
    ∧ (decodeCall c).verify_aud = (pyTruthy c.jwt_audience || c.okta_audience.isSome)
    ∧ (decodeCall c).verify_iss = (pyTruthy c.jwt_issuer || c.okta_issuer.isSome) :=
  ⟨rfl, rfl, rfl, rfl, rfl, pyOr_isSome c.jwt_audience c.okta_audience,
    pyOr_isSome c.jwt_issuer c.okta_issuer⟩

/-- C8: the 0-based i-th backoff sleep of the retry loop is always
baseDelayMs times 2 to the i, so the sleep after the 1-based attempt n is
the base delay times 2 to the n minus 1; in the spec scenario with three
retries and an always failing key source the two observed delays are the
base delay and twice the base delay. -/
theorem backoff_delays_geometric (c : AuthConfig) (envs : Nat → AttemptEnv) :
    (validate_token_with_retry c envs).sleeps
      = (List.range (validate_token_with_retry c envs).sleeps.length).map
          (fun i => baseDelayMs * 2 ^ i)
    ∧ (validate_token_with_retry retry3Config alwaysFailEnvs).sleeps
      = [baseDelayMs, 2 * baseDelayMs] := by
  constructor
  · obtain ⟨len, hl⟩ := retryGo_sleeps_geometric c envs
      (c.token_validation_retries.toNat) 0 none []
    have hl2 : (validate_token_with_retry c envs).sleeps
        = (List.range' 0 len).map (fun i => baseDelayMs * 2 ^ i) := by
      simpa [validate_token_with_retry] using hl
    rw [hl2, ← List.range_eq_range']
    simp
  · decide

/-- C9: the bypass flag is consulted per request (each dispatch and each
dependency call reads ARK_SKIP_AUTH from the environment it is handed at
call time), and whenever it evaluates to enabled, the middleware forwards
every request regardless of the route classification, with the header never
read and no validator invoked, and the ark_auth dependency likewise returns
success immediately for any header and any decode outcome. -/
theorem skip_auth_forwards_everything (env : Env) (h : skipAuthEnabled env = true) :
    (∀ publicRoutes path auth validator,
      auth_middleware_dispatch env publicRoutes path auth validator
        = ⟨.forwarded, false, false⟩)
    ∧ (∀ auth jwtOk, arkauth_validate_token env auth jwtOk = .ok ()) := by
  constructor
  · intro publicRoutes path auth validator
    simp [auth_middleware_dispatch, h]
  · intro auth jwtOk
    simp [arkauth_validate_token, h]

/-- Witness for C9: with ARK_SKIP_AUTH set to TRUE, a protected path with a
missing header is forwarded without inspection, and the ark_auth dependency
accepts despite a decoder that rejects everything. -/
theorem skip_auth_forwards_everything_witness :
    auth_middleware_dispatch envOn pubRoutes "/v1/agents" none expiredValidator
      = ⟨.forwarded, false, false⟩
    ∧ arkauth_validate_token envOn none (fun _ => false) = .ok () :=
  ⟨(skip_auth_forwards_everything envOn (by decide)).1 pubRoutes "/v1/agents" none
      expiredValidator,
    (skip_auth_forwards_everything envOn (by decide)).2 none (fun _ => false)⟩

/-- C10: a nonpositive configured retry count makes validate_token_with_retry
run zero validate_token attempts, so no key fetch and no network activity
happens, and it raises the fallback TokenValidationError carrying the
message Token validation failed after retries. -/
theorem retry_nonpositive_zero_attempts (c : AuthConfig) (envs : Nat → AttemptEnv)
    (h : c.token_validation_retries ≤ 0) :
    validate_token_with_retry c envs
      = ⟨.error (.tokenValidationError "Token validation failed after retries"), 0, []⟩ := by
  have h0 : c.token_validation_retries.toNat = 0 := Int.toNat_of_nonpos h
  simp [validate_token_with_retry, h0, retryGo]

/-- Witness for C10 at a configuration with the retry count set to minus
one. -/
theorem retry_nonpositive_zero_attempts_witness :
    validate_token_with_retry { retry3Config with token_validation_retries := -1 }
        alwaysFailEnvs
      = ⟨.error (.tokenValidationError "Token validation failed after retries"), 0, []⟩ :=
  retry_nonpositive_zero_attempts _ alwaysFailEnvs (by decide)

end ArkAuth
